import Mathlib

/-!
Verification of the Green Optimizer front-end (React client) and of the
analysis/optimization pipeline it talks to.

Embedded source files:
- `src/Frontend/src/components/GreenOptimizer.jsx` (theme toggling)
- `src/Frontend/src/components/MainPage.jsx` (URL validation, error rendering)
- `src/Frontend/src/components/AnalysisReport.jsx` (optimization launch,
  status polling, report rendering)
- `src/Frontend/src/services/api.js` (request bodies)

The Python backend (MetricsEngine / OptimizationEngine / JobStore) is not part
of the available sources; the definitions below that concern it are modelled
from the specification and say so in their doc comments.
-/

/-! ## JavaScript string helpers

`String.prototype.includes` and `String.prototype.trim`, modelled at the
character-list level so that all statements are executable.
-/

/-- The list `cs` starts with the pattern `p` (character-wise equality). -/
def matchHere : List Char → List Char → Bool
  | [], _ => true
  | _ :: _, [] => false
  | p :: ps, c :: cs => p == c && matchHere ps cs

/-- The pattern `p` occurs as a contiguous run somewhere in the list. -/
def hasSub (p : List Char) : List Char → Bool
  | [] => matchHere p []
  | c :: cs => matchHere p (c :: cs) || hasSub p cs

/-- JavaScript `s.includes(pat)`: `pat` occurs as a substring of `s`. -/
def jsIncludes (s pat : String) : Bool :=
  hasSub pat.data s.data

/-- JavaScript `s.trim()`: strip leading and trailing whitespace. -/
def jsTrim (s : String) : String :=
  String.mk (((s.data.dropWhile Char.isWhitespace).reverse.dropWhile
    Char.isWhitespace).reverse)

/-! ## Theme state (`GreenOptimizer.jsx`) -/

inductive Theme
  | light
  | dark
deriving DecidableEq, Repr

/-- The string stored in `localStorage` for each theme. -/
def themeName : Theme → String
  | .light => "light"
  | .dark => "dark"

/-- The `document.body.className` the component assigns for each theme:
`newTheme === 'dark' ? 'dark-mode' : 'light-mode'`. -/
def themeBodyClass : Theme → String
  | .dark => "dark-mode"
  | .light => "light-mode"

/-- The pieces of browser state touched by `toggleTheme`: the React `theme`
state, `document.body.className`, and `localStorage.getItem('theme')`. -/
structure ThemeUiState where
  theme : Theme
  bodyClassName : String
  storedTheme : Option String
deriving DecidableEq, Repr

/-- `toggleTheme` from `GreenOptimizer.jsx` lines 18-23: flip the theme,
persist the new theme name, and set the body class from the new theme. -/
def toggleTheme (s : ThemeUiState) : ThemeUiState :=
  let newTheme := if s.theme = Theme.light then Theme.dark else Theme.light
  { theme := newTheme
    storedTheme := some (themeName newTheme)
    bodyClassName := if newTheme = Theme.dark then "dark-mode" else "light-mode" }

/-! ## Optimization request payload (`api.js` V3, `AnalysisReport.jsx`) -/

/-- The enumerated cleanup options, field-for-field as in the
`optimizationOptions` React state (`AnalysisReport.jsx` lines 16-22). -/
structure CleanupOptions where
  remove_comments : Bool
  remove_whitespace : Bool
  remove_unused_files : Bool
  optimize_images : Bool
  minify_code : Bool
deriving DecidableEq, Repr

/-- The client's initial `optimizationOptions` state: every option enabled. -/
def defaultOptimizationOptions : CleanupOptions :=
  { remove_comments := true
    remove_whitespace := true
    remove_unused_files := true
    optimize_images := true
    minify_code := true }

/-- The JSON body sent by `ApiService.optimizeRepository`. -/
structure OptimizeRequestBody where
  analysis_id : String
  cleanup_options : CleanupOptions
  output_format : String
deriving DecidableEq, Repr

/-- `ApiService.optimizeRepository` (`api.js`): the body always carries the
analysis id, the caller's option set, and `output_format: 'zip'`. -/
def mkOptimizeRequest (analysisId : String) (options : CleanupOptions) :
    OptimizeRequestBody :=
  { analysis_id := analysisId
    cleanup_options := options
    output_format := "zip" }

/-! ## Launching an optimization (`AnalysisReport.jsx`, `handleOptimize`) -/

/-- The client-side job record stored in the `optimizationJob` React state
right after a successful launch. -/
structure ClientJob where
  job_id : String
  progress : Nat
  job_status : String
deriving DecidableEq, Repr

/-- The pieces of `AnalysisReport` component state touched by
`handleOptimize`. -/
structure OptimizeUiState where
  optimizing : Bool
  optimizationJob : Option ClientJob
  pageError : String
deriving DecidableEq, Repr

/-- Component state before any optimization was launched. -/
def initOptimizeUi : OptimizeUiState :=
  { optimizing := false, optimizationJob := none, pageError := "" }

/-- Outcome of the awaited `api.optimizeRepository` call. -/
inductive OptimizeApiOutcome
  | success (jobId : String)
  | failure (msg : String)
deriving DecidableEq, Repr

/-- The distinct please-re-run-analysis message
(`AnalysisReport.jsx` line 82). -/
def sessionExpiredMessage : String :=
  "Session expir\xe9e (serveur red\xe9marr\xe9). Veuillez relancer l\x27analyse depuis l\x27accueil."

/-- The error-message routing in the catch block of `handleOptimize`
(lines 81-85): a message containing `not found` or `404` is surfaced as the
session-expired notice, anything else as the generic launch failure. -/
def optimizeErrorMessage (msg : String) : String :=
  if jsIncludes msg "not found" || jsIncludes msg "404" then
    sessionExpiredMessage
  else
    "Erreur lors du lancement de l\x27optimisation: " ++ msg

/-- `handleOptimize` (`AnalysisReport.jsx` lines 69-88). Early-returns when no
analysis id is available; on success records the fresh job with progress `0`
and status `processing` (leaving `optimizing` true for the poller); on failure
routes the message through `optimizeErrorMessage` and resets `optimizing`. -/
def handleOptimize (analysisId : Option String) (api : OptimizeApiOutcome)
    (s : OptimizeUiState) : OptimizeUiState :=
  match analysisId with
  | none => s
  | some _ =>
    match api with
    | .success jid =>
      { s with
        optimizing := true
        optimizationJob :=
          some { job_id := jid, progress := 0, job_status := "processing" } }
    | .failure msg =>
      { s with
        optimizing := false
        pageError := optimizeErrorMessage msg }

/-! ## Status polling (`AnalysisReport.jsx` lines 49-67) -/

/-- The interval passed to `setInterval` in the polling effect, in
milliseconds. -/
def pollIntervalMs : Nat := 1000

/-- One tick of the polling loop: either a job record came back (carrying a
status string) or the fetch threw (the catch block only logs and the loop
continues). -/
inductive PollResult
  | ok (jobStatus : String)
  | fetchFailed
deriving DecidableEq, Repr

/-- The stop condition of the polling effect: `status.status === 'completed'
|| status.status === 'failed'` clears the interval; a thrown fetch error does
not. -/
def pollStops : PollResult → Bool
  | .ok s => s == "completed" || s == "failed"
  | .fetchFailed => false

/-- How many requests the polling loop issues when the successive server
responses are `rs`: it polls once per tick and stops right after the first
response whose status is `completed` or `failed`. -/
def pollRequestCount : List PollResult → Nat
  | [] => 0
  | r :: rs => 1 + (if pollStops r then 0 else pollRequestCount rs)

/-! ## Repository URL validation and error rendering (`MainPage.jsx`) -/

/-- The pieces of `MainPage` component state touched by `handleAnalyze`. -/
structure MainPageState where
  repoUrl : String
  loading : Bool
  pageError : String
deriving DecidableEq, Repr

/-- Outcome of the awaited `api.analyzeRepository` call. -/
inductive AnalyzeOutcome
  | success (analysisId : String)
  | failure (msg : String)
deriving DecidableEq, Repr

/-- What one invocation of `handleAnalyze` did: the final component state,
whether the backend request was issued, and whether the client navigated to
the report page. -/
structure AnalyzeRun where
  state : MainPageState
  requestSent : Bool
  navigated : Bool
deriving DecidableEq, Repr

/-- Validation message for a blank URL (`MainPage.jsx` line 17). -/
def urlRequiredMessage : String :=
  "Veuillez entrer une URL de repository GitHub"

/-- Validation message for a URL without `github.com` (line 23). -/
def urlInvalidMessage : String :=
  "Veuillez entrer une URL GitHub valide"

/-- Fallback shown when the thrown error has an empty message (line 43). -/
def analyzeFallbackMessage : String :=
  "Une erreur est survenue lors de l\x27analyse"

/-- `handleAnalyze` (`MainPage.jsx` lines 14-47): early-return with a
validation message when the trimmed URL is blank or lacks `github.com`
(issuing no request); otherwise clear the error, call the backend, navigate on
success, surface `err.message` (or the fallback) on failure, and in the
`finally` clause reset `loading`. -/
def handleAnalyze (api : AnalyzeOutcome) (s : MainPageState) : AnalyzeRun :=
  if jsTrim s.repoUrl = "" then
    { state := { s with pageError := urlRequiredMessage }
      requestSent := false, navigated := false }
  else if !jsIncludes s.repoUrl "github.com" then
    { state := { s with pageError := urlInvalidMessage }
      requestSent := false, navigated := false }
  else
    match api with
    | .success _ =>
      { state := { s with pageError := "", loading := false }
        requestSent := true, navigated := true }
    | .failure msg =>
      { state :=
          { s with
            pageError := if msg = "" then analyzeFallbackMessage else msg
            loading := false }
        requestSent := true, navigated := false }

/-- What the error box of `MainPage.jsx` renders. -/
inductive ErrorNotice
  | rateLimitNotice
  | genericNotice (msg : String)
deriving DecidableEq, Repr

/-- The error box (`MainPage.jsx` lines 119-138): rendered only for a
non-empty error; a message containing `403` or `rate limit` renders the
distinct retry-later notice, anything else renders the message itself. -/
def renderError (err : String) : Option ErrorNotice :=
  if err = "" then none
  else if jsIncludes err "403" || jsIncludes err "rate limit" then
    some ErrorNotice.rateLimitNotice
  else
    some (ErrorNotice.genericNotice err)

/-! ## Unused-files metrics of an AnalysisReport

The backend MetricsEngine is not among the available sources (only the client
that consumes its reports is), so the report construction below is modelled
from the specification.
-/

/-- One entry of a per-type unused-file list: path plus size in kilobytes. -/
structure UFile where
  path : String
  size_kb : ℚ
deriving DecidableEq, Repr

/-- One per-type bucket of the unused-files metrics: the file list, its
length as the per-type count, and the summed size converted to megabytes. -/
structure TypeBucket where
  count : Nat
  files : List UFile
  size_mb : ℚ
deriving DecidableEq, Repr

/-- Modelled from the spec: a per-type bucket is derived from its file list —
`count` is the list length and `size_mb` the sum of the constituent file
sizes (spec section 3, unused-files metrics). -/
def mkBucket (fs : List UFile) : TypeBucket :=
  { count := fs.length
    files := fs
    size_mb := (fs.map UFile.size_kb).sum / 1024 }

/-- The `unused_files_advanced` metrics block the client reads
(`AnalysisReport.jsx` lines 248, 280-323). -/
structure UnusedFilesMetrics where
  unused_css : TypeBucket
  unused_js : TypeBucket
  unused_images : TypeBucket
  total_unused_files : Nat
  total_unused_size_mb : ℚ
deriving DecidableEq, Repr

/-- Modelled from the spec: MetricsEngine builds the unused-files metrics
from the three per-type file lists produced by FileClassifier; the totals are
the sums of the per-type bucket values, which are themselves sums over the
file lists — not independently re-derived (spec sections 3 and 8). -/
def mkUnusedFilesMetrics (css js imgs : List UFile) : UnusedFilesMetrics :=
  let c := mkBucket css
  let j := mkBucket js
  let i := mkBucket imgs
  { unused_css := c
    unused_js := j
    unused_images := i
    total_unused_files := c.count + j.count + i.count
    total_unused_size_mb := c.size_mb + j.size_mb + i.size_mb }

/-- The client-side total shown in the score summary
(`AnalysisReport.jsx` line 283): the sum of the three per-type counts. -/
def displayedUnusedCount (m : UnusedFilesMetrics) : Nat :=
  m.unused_css.count + m.unused_js.count + m.unused_images.count

/-! ## Full AnalysisReport metrics (MetricsEngine output)

Modelled from the spec; the sub-metric blocks are wrapped in `Option` to
represent a wire format in which a field could in principle be absent — the
point of the completeness claim is that the engine always emits `some`.
-/

/-- The `comments_analysis` block read by the client. -/
structure CommentsAnalysis where
  files_analyzed : Nat
  total_comment_lines : Nat
  avg_comment_percent : ℚ
  files_with_excessive_comments : Nat
deriving DecidableEq, Repr

/-- The `whitespace_analysis` block read by the client. -/
structure WhitespaceAnalysis where
  files_analyzed : Nat
  total_savings_kb : ℚ
  files_with_issues : Nat
deriving DecidableEq, Repr

/-- The nested metrics structure of an AnalysisReport as delivered to the
client; each sub-metric block is an `Option` at the wire level. -/
structure AnalysisMetrics where
  total_files : Nat
  unused_files_advanced : Option UnusedFilesMetrics
  comments_analysis : Option CommentsAnalysis
  whitespace_analysis : Option WhitespaceAnalysis
deriving DecidableEq, Repr

/-- Per-file measurement data consumed by MetricsEngine (comment ratio,
reclaimable whitespace), provided by the external measurement collaborator. -/
structure FileMeasurement where
  comment_lines : Nat
  comment_percent : ℚ
  reclaimable_kb : ℚ
deriving DecidableEq, Repr

/-- Modelled from the spec: the configured threshold above which a file
counts as having excessive comments (spec section 3, comment metrics). -/
def excessiveCommentThreshold : ℚ := 30

/-- Modelled from the spec: the comment metrics block, zero-valued (not
absent) when no file was measured; the average guards the empty case. -/
def buildCommentsAnalysis (ms : List FileMeasurement) : CommentsAnalysis :=
  { files_analyzed := ms.length
    total_comment_lines := (ms.map FileMeasurement.comment_lines).sum
    avg_comment_percent :=
      if ms.length = 0 then 0
      else (ms.map FileMeasurement.comment_percent).sum / (ms.length : ℚ)
    files_with_excessive_comments :=
      (ms.filter
        (fun m => decide (excessiveCommentThreshold < m.comment_percent))).length }

/-- Modelled from the spec: the whitespace metrics block, zero-valued (not
absent) when no file was measured. -/
def buildWhitespaceAnalysis (ms : List FileMeasurement) : WhitespaceAnalysis :=
  { files_analyzed := ms.length
    total_savings_kb := (ms.map FileMeasurement.reclaimable_kb).sum
    files_with_issues :=
      (ms.filter (fun m => decide (0 < m.reclaimable_kb))).length }

/-- Modelled from the spec: MetricsEngine always produces a complete report —
every sub-metric block is present (`some`), zero-valued when its inputs are
empty, never absent (spec section 4.2). -/
def buildReport (totalFiles : Nat) (css js imgs : List UFile)
    (ms : List FileMeasurement) : AnalysisMetrics :=
  { total_files := totalFiles
    unused_files_advanced := some (mkUnusedFilesMetrics css js imgs)
    comments_analysis := some (buildCommentsAnalysis ms)
    whitespace_analysis := some (buildWhitespaceAnalysis ms) }

/-! ## OptimizationJob state machine (OptimizationEngine and JobStore)

The backend engine is not among the available sources; the state machine
below is modelled from the specification (section 4.4): `queued → processing`
on acceptance, per-file steps while `processing`, `completed` once all files
are processed (result summary attached atomically), `failed` only on an
unrecoverable condition (per-file errors never fail the job).
-/

/-- The four job statuses of the spec. -/
inductive JobStatus
  | queued
  | processing
  | completed
  | failed
deriving DecidableEq, Repr

/-- The result summary attached exactly when a job completes. -/
structure ResultSummary where
  bytes_saved : Nat
  files_deleted : Nat
  files_modified : Nat
deriving DecidableEq, Repr

/-- Modelled from the spec: the internal state of one OptimizationJob as kept
in JobStore — total applicable files, files processed so far, accumulated
savings counters, status, and the completion/failure payloads. -/
structure JobState where
  total : Nat
  done : Nat
  job_status : JobStatus
  bytes_saved : Nat
  files_deleted : Nat
  files_modified : Nat
  result : Option ResultSummary
  error : Option String
deriving DecidableEq, Repr

/-- Modelled from the spec: a freshly created job over `n` applicable files:
queued, nothing processed, no result and no error yet. -/
def mkJob (n : Nat) : JobState :=
  { total := n, done := 0, job_status := JobStatus.queued
    bytes_saved := 0, files_deleted := 0, files_modified := 0
    result := none, error := none }

/-- Modelled from the spec: the `queued → processing` transition on job
acceptance. -/
def acceptJob (j : JobState) : JobState :=
  if j.job_status = JobStatus.queued then
    { j with job_status := JobStatus.processing }
  else j

/-- Modelled from the spec: what processing one file can yield — per-file
savings (a failed per-file transformation is an `ok` with zero savings), or
an unrecoverable condition that fails the whole job. -/
inductive StepOutcome
  | ok (saved deleted modified : Nat)
  | fatal (msg : String)
deriving DecidableEq, Repr

/-- Modelled from the spec: a successful per-file step while `processing`
advances the file counter and the savings accumulators; once every file is
processed, the status becomes `completed` and the result summary built from
the accumulated counters is attached in the same update (atomically).
Terminal states are never left. -/
def stepOk (j : JobState) (saved deleted modified : Nat) : JobState :=
  if j.job_status = JobStatus.processing then
    if j.done + 1 < j.total then
      { j with
        done := j.done + 1
        bytes_saved := j.bytes_saved + saved
        files_deleted := j.files_deleted + deleted
        files_modified := j.files_modified + modified }
    else
      { j with
        done := j.done + 1
        bytes_saved := j.bytes_saved + saved
        files_deleted := j.files_deleted + deleted
        files_modified := j.files_modified + modified
        job_status := JobStatus.completed
        result := some
          { bytes_saved := j.bytes_saved + saved
            files_deleted := j.files_deleted + deleted
            files_modified := j.files_modified + modified } }
  else j

/-- Modelled from the spec: an unrecoverable condition while `processing`
moves the job to `failed` with the error description recorded; terminal
states are never left. -/
def stepFatal (j : JobState) (m : String) : JobState :=
  if j.job_status = JobStatus.processing then
    { j with job_status := JobStatus.failed, error := some m }
  else j

/-- Modelled from the spec: one engine step over one file. -/
def stepJob (j : JobState) (o : StepOutcome) : JobState :=
  match o with
  | .ok saved deleted modified => stepOk j saved deleted modified
  | .fatal m => stepFatal j m

/-- The progress value a status poller reads: `100` exactly at completion,
otherwise the processed fraction of the file set (0 when the job has no
applicable files yet counted). -/
def jobProgress (j : JobState) : Nat :=
  if j.job_status = JobStatus.completed then 100
  else if j.total = 0 then 0
  else j.done * 100 / j.total

/-- The run of a job over `n` applicable files whose successive per-file
outcomes are `os`: acceptance followed by the engine steps. Every observable
JobStore state of the job is `runJob n (os.take k)` for some `k`. -/
def runJob (n : Nat) (os : List StepOutcome) : JobState :=
  os.foldl stepJob (acceptJob (mkJob n))

/-! ## Theorems -/

/-- C7: Every optimize request carries an option set consisting of exactly the
five boolean fields `remove_unused_files`, `remove_comments`,
`remove_whitespace`, `optimize_images`, `minify_code` (an option set is fully
determined by those five booleans and the request body forwards it verbatim),
and the client's default option set has all five set to `true`. -/
theorem optimize_request_options_contract :
    (defaultOptimizationOptions.remove_unused_files = true ∧
      defaultOptimizationOptions.remove_comments = true ∧
      defaultOptimizationOptions.remove_whitespace = true ∧
      defaultOptimizationOptions.optimize_images = true ∧
      defaultOptimizationOptions.minify_code = true) ∧
    (∀ o : CleanupOptions,
      o = { remove_comments := o.remove_comments
            remove_whitespace := o.remove_whitespace
            remove_unused_files := o.remove_unused_files
            optimize_images := o.optimize_images
            minify_code := o.minify_code }) ∧
    ∀ (aid : String) (opts : CleanupOptions),
      (mkOptimizeRequest aid opts).cleanup_options = opts ∧
      (mkOptimizeRequest aid opts).analysis_id = aid ∧
      (mkOptimizeRequest aid opts).output_format = "zip" := by
  exact ⟨⟨rfl, rfl, rfl, rfl, rfl⟩, fun o => rfl, fun aid opts => ⟨rfl, rfl, rfl⟩⟩

/-- C9: From any consistent theme state (body class matching the active
theme), applying `toggleTheme` twice restores both the theme state and
`document.body.className`, and after every single toggle the value stored
under the `localStorage` key `theme` equals the newly active theme. -/
theorem toggle_theme_involution (s : ThemeUiState)
    (h : s.bodyClassName = themeBodyClass s.theme) :
    (toggleTheme (toggleTheme s)).theme = s.theme ∧
    (toggleTheme (toggleTheme s)).bodyClassName = s.bodyClassName ∧
    (toggleTheme s).storedTheme = some (themeName (toggleTheme s).theme) ∧
    (toggleTheme (toggleTheme s)).storedTheme =
      some (themeName (toggleTheme (toggleTheme s)).theme) := by
  cases s with
  | mk t b st => cases t <;> simp_all [toggleTheme, themeBodyClass, themeName]

/-- Witness for C9 at a concrete light-mode state. -/
theorem toggle_theme_involution_witness :
    (toggleTheme (toggleTheme ⟨Theme.light, "light-mode", none⟩)).theme =
      Theme.light ∧
    (toggleTheme (toggleTheme ⟨Theme.light, "light-mode", none⟩)).bodyClassName =
      "light-mode" ∧
    (toggleTheme ⟨Theme.light, "light-mode", none⟩).storedTheme = some "dark" := by
  have h := toggle_theme_involution ⟨Theme.light, "light-mode", none⟩ rfl
  exact ⟨h.1, h.2.1, h.2.2.1⟩

/-- C1: In every unused-files metrics block, the total unused size equals the
sum of the per-type unused sizes and the total unused-file count equals the
sum of the per-type counts, each equal to the sum over the constituent file
lists themselves (no independent re-derivation drift); the count the client
displays agrees with the total. -/
theorem unused_totals_are_sums (css js imgs : List UFile) :
    (mkUnusedFilesMetrics css js imgs).total_unused_size_mb =
      (mkUnusedFilesMetrics css js imgs).unused_css.size_mb +
      (mkUnusedFilesMetrics css js imgs).unused_js.size_mb +
      (mkUnusedFilesMetrics css js imgs).unused_images.size_mb ∧
    (mkUnusedFilesMetrics css js imgs).total_unused_files =
      (mkUnusedFilesMetrics css js imgs).unused_css.count +
      (mkUnusedFilesMetrics css js imgs).unused_js.count +
      (mkUnusedFilesMetrics css js imgs).unused_images.count ∧
    (mkUnusedFilesMetrics css js imgs).total_unused_size_mb =
      ((css ++ js ++ imgs).map UFile.size_kb).sum / 1024 ∧
    (mkUnusedFilesMetrics css js imgs).total_unused_files =
      (css ++ js ++ imgs).length ∧
    displayedUnusedCount (mkUnusedFilesMetrics css js imgs) =
      (mkUnusedFilesMetrics css js imgs).total_unused_files := by
  refine ⟨rfl, rfl, ?_, ?_, rfl⟩
  · simp only [mkUnusedFilesMetrics, mkBucket, List.map_append, List.sum_append]
    rw [add_div, add_div]
  · simp [mkUnusedFilesMetrics, mkBucket, Nat.add_assoc]

/-- C4: While an optimization job is in flight the client polls
`optimize_status` at a fixed interval of one second, and it stops exactly at
the first response whose status is `completed` or `failed` (a response with
any other status, or a failed fetch, keeps the loop running). -/
theorem polling_contract (rs : List PollResult) :
    pollIntervalMs = 1000 ∧
    pollRequestCount rs =
      (match rs.findIdx? pollStops with
        | some i => i + 1
        | none => rs.length) := by
  refine ⟨rfl, ?_⟩
  induction rs with
  | nil => rfl
  | cons r rs ih =>
    by_cases h : pollStops r = true
    · simp [pollRequestCount, List.findIdx?_cons, h]
    · rw [Bool.not_eq_true] at h
      simp only [pollRequestCount, List.findIdx?_cons, h, Bool.false_eq_true,
        if_false, List.findIdx?_succ]
      cases hfind : rs.findIdx? pollStops with
      | none =>
        simp only [hfind] at ih
        simp [hfind, ih, Nat.add_comm]
      | some i =>
        simp only [hfind] at ih
        simp [hfind, ih, Nat.add_comm]

/-- C5: When launching an optimization fails and the thrown message contains
`not found` or `404` (unknown analysis id, e.g. after a server restart), the
client surfaces the distinct please-re-run-analysis message; any other
failure gets the generic launch-failure message; in both cases the
`optimizing` flag is reset to `false`. -/
theorem optimize_notfound_error_handling (aid msg : String)
    (s : OptimizeUiState) :
    (handleOptimize (some aid) (OptimizeApiOutcome.failure msg) s).optimizing =
      false ∧
    ((jsIncludes msg "not found" || jsIncludes msg "404") = true →
      (handleOptimize (some aid) (OptimizeApiOutcome.failure msg) s).pageError =
        sessionExpiredMessage) ∧
    ((jsIncludes msg "not found" || jsIncludes msg "404") = false →
      (handleOptimize (some aid) (OptimizeApiOutcome.failure msg) s).pageError =
        "Erreur lors du lancement de l\x27optimisation: " ++ msg) := by
  refine ⟨rfl, ?_, ?_⟩ <;> intro h <;>
    simp [handleOptimize, optimizeErrorMessage, h]

/-- Witness for C5: a not-found launch failure shows the session-expired
notice, a generic one keeps its own message; `optimizing` ends up false. -/
theorem optimize_notfound_error_handling_witness :
    (handleOptimize (some "a1")
        (OptimizeApiOutcome.failure "Analysis not found") initOptimizeUi).pageError =
      sessionExpiredMessage ∧
    (handleOptimize (some "a1")
        (OptimizeApiOutcome.failure "HTTP 500: boom") initOptimizeUi).pageError =
      "Erreur lors du lancement de l\x27optimisation: HTTP 500: boom" ∧
    (handleOptimize (some "a1")
        (OptimizeApiOutcome.failure "Analysis not found") initOptimizeUi).optimizing =
      false := by
  refine ⟨(optimize_notfound_error_handling "a1" "Analysis not found"
      initOptimizeUi).2.1 (by decide),
    (optimize_notfound_error_handling "a1" "HTTP 500: boom"
      initOptimizeUi).2.2 (by decide),
    (optimize_notfound_error_handling "a1" "Analysis not found"
      initOptimizeUi).1⟩

/-- C6: When an analysis request fails through a valid GitHub URL and the
error message contains `403` or `rate limit`, the page renders the distinct
rate-limit notice; every other failure renders the error's own message. -/
theorem rate_limit_error_rendering (msg : String) (s : MainPageState)
    (hblank : ¬jsTrim s.repoUrl = "")
    (hgh : jsIncludes s.repoUrl "github.com" = true)
    (hmsg : msg ≠ "") :
    ((jsIncludes msg "403" || jsIncludes msg "rate limit") = true →
      renderError (handleAnalyze (AnalyzeOutcome.failure msg) s).state.pageError =
        some ErrorNotice.rateLimitNotice) ∧
    ((jsIncludes msg "403" || jsIncludes msg "rate limit") = false →
      renderError (handleAnalyze (AnalyzeOutcome.failure msg) s).state.pageError =
        some (ErrorNotice.genericNotice msg)) := by
  have hstate :
      (handleAnalyze (AnalyzeOutcome.failure msg) s).state.pageError = msg := by
    simp [handleAnalyze, hblank, hgh, hmsg]
  constructor <;> intro h <;> rw [hstate] <;> simp [renderError, hmsg, h]

/-- Witness for C6 at a concrete valid URL: a rate-limit failure renders the
retry-later notice, a generic failure renders its own message. -/
theorem rate_limit_error_rendering_witness :
    renderError (handleAnalyze
        (AnalyzeOutcome.failure "403 rate limit exceeded")
        ⟨"https://github.com/u/r", false, ""⟩).state.pageError =
      some ErrorNotice.rateLimitNotice ∧
    renderError (handleAnalyze
        (AnalyzeOutcome.failure "server exploded")
        ⟨"https://github.com/u/r", false, ""⟩).state.pageError =
      some (ErrorNotice.genericNotice "server exploded") := by
  refine ⟨(rate_limit_error_rendering "403 rate limit exceeded"
      ⟨"https://github.com/u/r", false, ""⟩ (by decide) (by decide)
      (by decide)).1 (by decide),
    (rate_limit_error_rendering "server exploded"
      ⟨"https://github.com/u/r", false, ""⟩ (by decide) (by decide)
      (by decide)).2 (by decide)⟩

/-- C10: `handleAnalyze` issues the backend request exactly when the entered
URL is non-blank after trimming and contains `github.com`; otherwise it sets
one of the two validation messages and issues no request; and whenever it
starts from a non-loading state (the button is disabled while loading), the
loading flag is `false` again when it completes. -/
theorem analyze_validation_contract (api : AnalyzeOutcome) (s : MainPageState)
    (h : s.loading = false) :
    ((handleAnalyze api s).requestSent = true ↔
      (¬jsTrim s.repoUrl = "" ∧ jsIncludes s.repoUrl "github.com" = true)) ∧
    ((handleAnalyze api s).requestSent = false →
      ((handleAnalyze api s).state.pageError = urlRequiredMessage ∨
        (handleAnalyze api s).state.pageError = urlInvalidMessage)) ∧
    (handleAnalyze api s).state.loading = false := by
  by_cases h1 : jsTrim s.repoUrl = ""
  · simp [handleAnalyze, h1, h]
  · by_cases h2 : jsIncludes s.repoUrl "github.com" = true
    · cases api <;> simp [handleAnalyze, h1, h2]
    · rw [Bool.not_eq_true] at h2
      simp [handleAnalyze, h1, h2, h]

/-- Witness for C10: a valid URL issues the request; a URL without
`github.com` does not and sets the validation message, leaving loading
false. -/
theorem analyze_validation_contract_witness :
    (handleAnalyze (AnalyzeOutcome.failure "x")
        ⟨"https://github.com/u/r", false, ""⟩).requestSent = true ∧
    (handleAnalyze (AnalyzeOutcome.failure "x")
        ⟨"https://gitlab.com/u/r", false, ""⟩).requestSent = false ∧
    ((handleAnalyze (AnalyzeOutcome.failure "x")
        ⟨"https://gitlab.com/u/r", false, ""⟩).state.pageError =
          urlRequiredMessage ∨
      (handleAnalyze (AnalyzeOutcome.failure "x")
        ⟨"https://gitlab.com/u/r", false, ""⟩).state.pageError =
          urlInvalidMessage) ∧
    (handleAnalyze (AnalyzeOutcome.failure "x")
        ⟨"https://gitlab.com/u/r", false, ""⟩).state.loading = false := by
  have h1 := analyze_validation_contract (AnalyzeOutcome.failure "x")
    ⟨"https://github.com/u/r", false, ""⟩ rfl
  have h2 := analyze_validation_contract (AnalyzeOutcome.failure "x")
    ⟨"https://gitlab.com/u/r", false, ""⟩ rfl
  have hfalse : (handleAnalyze (AnalyzeOutcome.failure "x")
      ⟨"https://gitlab.com/u/r", false, ""⟩).requestSent = false := by
    cases hrs : (handleAnalyze (AnalyzeOutcome.failure "x")
        ⟨"https://gitlab.com/u/r", false, ""⟩).requestSent
    · rfl
    · exact absurd (h2.1.mp hrs).2 (by decide)
  exact ⟨h1.1.mpr ⟨by decide, by decide⟩, hfalse, h2.2.1 hfalse, h2.2.2⟩

/-- The state invariant maintained by the optimization engine: a job that is
still running (or that failed) has not processed its whole file set (unless
the set is empty), a queued job has processed nothing, the result summary is
present exactly at completion and the error exactly at failure. -/
def JobInv (j : JobState) : Prop :=
  (j.job_status = JobStatus.processing → j.done < j.total ∨ j.total = 0) ∧
  (j.job_status = JobStatus.failed → j.done < j.total ∨ j.total = 0) ∧
  (j.job_status = JobStatus.queued → j.done = 0) ∧
  (j.result.isSome ↔ j.job_status = JobStatus.completed) ∧
  (j.error.isSome ↔ j.job_status = JobStatus.failed)

theorem jobInv_init (n : Nat) : JobInv (acceptJob (mkJob n)) := by
  simp [JobInv, acceptJob, mkJob]
  omega

theorem jobInv_step (j : JobState) (o : StepOutcome) (h : JobInv j) :
    JobInv (stepJob j o) := by
  obtain ⟨hpro, hfail, hque, hres, herr⟩ := h
  by_cases hs : j.job_status = JobStatus.processing
  · have hresn : j.result = none := by
      cases hr : j.result with
      | none => rfl
      | some v =>
        rw [hr] at hres
        have hc : j.job_status = JobStatus.completed := hres.mp rfl
        rw [hs] at hc
        exact absurd hc (by decide)
    have herrn : j.error = none := by
      cases hr : j.error with
      | none => rfl
      | some v =>
        rw [hr] at herr
        have hc : j.job_status = JobStatus.failed := herr.mp rfl
        rw [hs] at hc
        exact absurd hc (by decide)
    cases o with
    | ok saved deleted modified =>
      by_cases hdone : j.done + 1 < j.total
      · have heq : stepJob j (StepOutcome.ok saved deleted modified) =
            { j with
              done := j.done + 1
              bytes_saved := j.bytes_saved + saved
              files_deleted := j.files_deleted + deleted
              files_modified := j.files_modified + modified } := by
          simp [stepJob, stepOk, hs, hdone]
        rw [heq]
        unfold JobInv
        simp [hs, hresn, herrn]
        exact Or.inl hdone
      · have heq : stepJob j (StepOutcome.ok saved deleted modified) =
            { j with
              done := j.done + 1
              bytes_saved := j.bytes_saved + saved
              files_deleted := j.files_deleted + deleted
              files_modified := j.files_modified + modified
              job_status := JobStatus.completed
              result := some
                { bytes_saved := j.bytes_saved + saved
                  files_deleted := j.files_deleted + deleted
                  files_modified := j.files_modified + modified } } := by
          simp [stepJob, stepOk, hs, hdone]
        rw [heq]
        unfold JobInv
        simp [herrn]
    | fatal m =>
      have heq : stepJob j (StepOutcome.fatal m) =
          { j with job_status := JobStatus.failed, error := some m } := by
        simp [stepJob, stepFatal, hs]
      rw [heq]
      unfold JobInv
      simp [hresn]
      exact hpro hs
  · have heq : stepJob j o = j := by
      cases o <;> simp [stepJob, stepOk, stepFatal, hs]
    rw [heq]
    exact ⟨hpro, hfail, hque, hres, herr⟩

theorem jobInv_foldl (os : List StepOutcome) (j : JobState) (h : JobInv j) :
    JobInv (os.foldl stepJob j) := by
  induction os generalizing j with
  | nil => exact h
  | cons o os ih => exact ih (stepJob j o) (jobInv_step j o h)

theorem jobInv_runJob (n : Nat) (os : List StepOutcome) :
    JobInv (runJob n os) :=
  jobInv_foldl os (acceptJob (mkJob n)) (jobInv_init n)

theorem jobProgress_le_100 (j : JobState) (h : JobInv j) :
    jobProgress j ≤ 100 := by
  obtain ⟨hpro, hfail, hque, -, -⟩ := h
  unfold jobProgress
  by_cases hc : j.job_status = JobStatus.completed
  · simp [hc]
  · simp [hc]
    by_cases ht : j.total = 0
    · simp [ht]
    · simp [ht]
      calc j.done * 100 / j.total ≤ j.total * 100 / j.total := by
            apply Nat.div_le_div_right
            apply Nat.mul_le_mul_right
            cases hsj : j.job_status with
            | queued => rw [hque hsj]; exact Nat.zero_le _
            | processing => rcases hpro hsj with h1 | h1; omega; omega
            | failed => rcases hfail hsj with h1 | h1; omega; omega
            | completed => exact absurd hsj hc
        _ = 100 := Nat.mul_div_cancel_left 100 (Nat.pos_of_ne_zero ht)

theorem jobProgress_eq_100_iff (j : JobState) (h : JobInv j) :
    jobProgress j = 100 ↔ j.job_status = JobStatus.completed := by
  obtain ⟨hpro, hfail, hque, -, -⟩ := h
  constructor
  · intro h100
    by_contra hc
    rw [jobProgress, if_neg hc] at h100
    by_cases ht : j.total = 0
    · rw [if_pos ht] at h100; exact absurd h100 (by omega)
    · rw [if_neg ht] at h100
      have htpos : 0 < j.total := Nat.pos_of_ne_zero ht
      have hlt : j.done < j.total := by
        cases hsj : j.job_status with
        | queued => rw [hque hsj]; omega
        | processing => rcases hpro hsj with h1 | h1; exact h1; omega
        | failed => rcases hfail hsj with h1 | h1; exact h1; omega
        | completed => exact absurd hsj hc
      have hmul : j.done * 100 < j.total * 100 :=
        (Nat.mul_lt_mul_right (by omega)).mpr hlt
      have : j.done * 100 / j.total < 100 := by
        rw [Nat.div_lt_iff_lt_mul htpos]
        omega
      omega
  · intro hc
    rw [jobProgress, if_pos hc]

theorem jobProgress_step_mono (j : JobState) (o : StepOutcome) (h : JobInv j) :
    jobProgress j ≤ jobProgress (stepJob j o) := by
  by_cases hs : j.job_status = JobStatus.processing
  · have hne : ¬j.job_status = JobStatus.completed := by rw [hs]; decide
    cases o with
    | ok saved deleted modified =>
      by_cases hdone : j.done + 1 < j.total
      · have heq : stepJob j (StepOutcome.ok saved deleted modified) =
            { j with
              done := j.done + 1
              bytes_saved := j.bytes_saved + saved
              files_deleted := j.files_deleted + deleted
              files_modified := j.files_modified + modified } := by
          simp [stepJob, stepOk, hs, hdone]
        rw [heq]
        have ht : ¬j.total = 0 := by omega
        simp only [jobProgress, hne, ht, if_false]
        apply Nat.div_le_div_right
        exact Nat.mul_le_mul_right 100 (Nat.le_succ _)
      · have heq : stepJob j (StepOutcome.ok saved deleted modified) =
            { j with
              done := j.done + 1
              bytes_saved := j.bytes_saved + saved
              files_deleted := j.files_deleted + deleted
              files_modified := j.files_modified + modified
              job_status := JobStatus.completed
              result := some
                { bytes_saved := j.bytes_saved + saved
                  files_deleted := j.files_deleted + deleted
                  files_modified := j.files_modified + modified } } := by
          simp [stepJob, stepOk, hs, hdone]
        rw [heq]
        have h100 : jobProgress
            { j with
              done := j.done + 1
              bytes_saved := j.bytes_saved + saved
              files_deleted := j.files_deleted + deleted
              files_modified := j.files_modified + modified
              job_status := JobStatus.completed
              result := some
                { bytes_saved := j.bytes_saved + saved
                  files_deleted := j.files_deleted + deleted
                  files_modified := j.files_modified + modified } } = 100 := by
          simp [jobProgress]
        rw [h100]
        exact jobProgress_le_100 j h
    | fatal m =>
      have heq : stepJob j (StepOutcome.fatal m) =
          { j with job_status := JobStatus.failed, error := some m } := by
        simp [stepJob, stepFatal, hs]
      rw [heq]
      simp [jobProgress, hne]
  · have heq : stepJob j o = j := by
      cases o <;> simp [stepJob, stepOk, stepFatal, hs]
    rw [heq]

theorem jobProgress_le_foldl (os : List StepOutcome) (j : JobState)
    (h : JobInv j) : jobProgress j ≤ jobProgress (os.foldl stepJob j) := by
  induction os generalizing j with
  | nil => exact Nat.le_refl _
  | cons o os ih =>
    exact Nat.le_trans (jobProgress_step_mono j o h)
      (ih (stepJob j o) (jobInv_step j o h))

/-- C2: For every OptimizationJob run, the progress value is monotonically
non-decreasing along the job's observable states, stays within 0..100, and
equals exactly 100 if and only if the job's status is `completed`. -/
theorem job_progress_monotone_bounded (n : Nat) (os : List StepOutcome)
    (k l : Nat) (hkl : k ≤ l) :
    jobProgress (runJob n (os.take k)) ≤ jobProgress (runJob n (os.take l)) ∧
    jobProgress (runJob n os) ≤ 100 ∧
    (jobProgress (runJob n os) = 100 ↔
      (runJob n os).job_status = JobStatus.completed) := by
  refine ⟨?_, jobProgress_le_100 _ (jobInv_runJob n os),
    jobProgress_eq_100_iff _ (jobInv_runJob n os)⟩
  have hsplit : os.take l = os.take k ++ (os.take l).drop k := by
    conv_lhs => rw [← List.take_append_drop k (os.take l)]
    rw [List.take_take, Nat.min_eq_left hkl]
  have hrw : runJob n (os.take l) =
      List.foldl stepJob (runJob n (os.take k)) ((os.take l).drop k) := by
    simp only [runJob]
    conv_lhs => rw [hsplit]
    rw [List.foldl_append]
  rw [hrw]
  exact jobProgress_le_foldl _ _ (jobInv_runJob n (os.take k))

/-- Witness for C2 on a concrete three-file job observed after one and after
two processed files. -/
theorem job_progress_monotone_bounded_witness :
    (1 ≤ 2) ∧
    (jobProgress (runJob 3 ([StepOutcome.ok 5 1 0,
        StepOutcome.ok 0 0 1].take 1)) ≤
      jobProgress (runJob 3 ([StepOutcome.ok 5 1 0,
        StepOutcome.ok 0 0 1].take 2)) ∧
    jobProgress (runJob 3 [StepOutcome.ok 5 1 0, StepOutcome.ok 0 0 1]) ≤ 100 ∧
    (jobProgress (runJob 3 [StepOutcome.ok 5 1 0, StepOutcome.ok 0 0 1]) = 100 ↔
      (runJob 3 [StepOutcome.ok 5 1 0,
        StepOutcome.ok 0 0 1]).job_status = JobStatus.completed)) :=
  ⟨by decide,
    job_progress_monotone_bounded 3
      [StepOutcome.ok 5 1 0, StepOutcome.ok 0 0 1] 1 2 (by decide)⟩

/-- C3: In every observable OptimizationJob state, the result summary is
present if and only if the status is `completed` (the summary is attached in
the same update that publishes `completed`, so no poller can observe
`completed` with a missing summary), and the error description is present if
and only if the status is `failed`. -/
theorem job_result_error_presence (n : Nat) (os : List StepOutcome) :
    ((runJob n os).result.isSome ↔
      (runJob n os).job_status = JobStatus.completed) ∧
    ((runJob n os).error.isSome ↔
      (runJob n os).job_status = JobStatus.failed) := by
  have h := jobInv_runJob n os
  exact ⟨h.2.2.2.1, h.2.2.2.2⟩

/-- C8: Every AnalysisReport delivered to a client is complete: each
sub-metric block (unused-files, comment, whitespace metrics) is always
present (`some`), and on empty inputs it is zero-valued rather than absent,
so the report-rendering path never meets a missing sub-metric field. -/
theorem report_submetrics_always_present (n : Nat) (css js imgs : List UFile)
    (ms : List FileMeasurement) :
    ((buildReport n css js imgs ms).unused_files_advanced.isSome = true ∧
      (buildReport n css js imgs ms).comments_analysis.isSome = true ∧
      (buildReport n css js imgs ms).whitespace_analysis.isSome = true) ∧
    ((buildReport 0 [] [] [] []).comments_analysis =
        some { files_analyzed := 0, total_comment_lines := 0,
               avg_comment_percent := 0, files_with_excessive_comments := 0 } ∧
      (buildReport 0 [] [] [] []).whitespace_analysis =
        some { files_analyzed := 0, total_savings_kb := 0,
               files_with_issues := 0 } ∧
      (buildReport 0 [] [] [] []).unused_files_advanced =
        some { unused_css := mkBucket [], unused_js := mkBucket [],
               unused_images := mkBucket [], total_unused_files := 0,
               total_unused_size_mb := 0 } ∧
      (mkBucket ([] : List UFile)).count = 0 ∧
      (mkBucket ([] : List UFile)).size_mb = 0) := by
  refine ⟨⟨rfl, rfl, rfl⟩, ?_, ?_, ?_, rfl, ?_⟩
  · simp [buildReport, buildCommentsAnalysis]
  · simp [buildReport, buildWhitespaceAnalysis]
  · simp [buildReport, mkUnusedFilesMetrics, mkBucket]
  · simp [mkBucket]
